import Mathlib

/-!
Verification development for the dry-ice inventory application.

Shallow embedding of the inventory-optimization core:
`app/core/analyzer.py` (KPI calculator, EOQ, safety stock, cost comparison),
`app/core/inventory_tracker.py` (stock ledger and status classification),
`app/core/data_loader.py` (derived order columns), `config/constants.py`
(cost parameters) and the stock-receipt handler in `app/main.py`.

Conventions of the embedding:
  - Python floats are modelled as exact rationals; values produced by
    `math.sqrt`-style library calls live in `ℝ` via `Real.sqrt`.
  - A pandas `NaN` result (undefined statistic) is modelled as `Option.none`.
  - `scipy.stats.norm.ppf` is an external library call; it is modelled as an
    arbitrary function parameter `ppf : ℚ → ℝ`.
  - Division by zero in Lean yields 0; the places where the Python code can
    divide by zero are discussed at the corresponding theorems.
-/

namespace DryIce

/-- One row of the cleaned order dataset: the calendar day as an integer day
number, and the ordered quantity in kg (`Order_Quantity_kg`). -/
structure OrderRow where
  date : ℤ
  quantity : ℚ
deriving DecidableEq, Repr

/-- The process-wide cost parameters of `config/constants.py`
(`INVENTORY_PARAMETERS`). Only the numeric fields used by the core are kept. -/
structure Params where
  PRICE_PER_KG : ℚ
  CONTAINER_SIZE : ℚ
  TRANSPORT_COST : ℚ
  HOLDING_RATE : ℚ
  LEAD_TIME_DAYS : ℚ
  SERVICE_LEVEL : ℚ
deriving DecidableEq, Repr

/-- The concrete constant record of `config/constants.py`. -/
def INVENTORY_PARAMETERS : Params :=
  { PRICE_PER_KG := 146.55
    CONTAINER_SIZE := 150
    TRANSPORT_COST := 1741.94
    HOLDING_RATE := 0.03
    LEAD_TIME_DAYS := 1
    SERVICE_LEVEL := 0.95 }

/-- Derived column `Containers_Used` of `data_loader.py`:
`np.ceil(quantity / CONTAINER_SIZE)`. -/
def containersUsed (p : Params) (q : ℚ) : ℤ :=
  ⌈q / p.CONTAINER_SIZE⌉

/-- Derived column `Total_Cost` of `data_loader.py`: `quantity * PRICE_PER_KG`. -/
def totalCostCol (p : Params) (q : ℚ) : ℚ :=
  q * p.PRICE_PER_KG

/-- Mean of a list of rationals, as pandas `Series.mean` on a non-empty
series (on an empty series pandas yields NaN; callers guarantee non-empty). -/
def mean (xs : List ℚ) : ℚ :=
  xs.sum / (xs.length : ℚ)

/-- Sample variance with `ddof = 1`, the quantity under the square root of
pandas `Series.std`. Only meaningful for lists of length at least 2. -/
def sampleVariance (xs : List ℚ) : ℚ :=
  ((xs.map fun x => (x - mean xs) ^ 2).sum) / ((xs.length : ℚ) - 1)

/-- Sample standard deviation as computed by pandas `Series.std()` with the
default `ddof = 1`: for fewer than 2 data points the result is NaN, modelled
as `none`; otherwise the square root of the sample variance. -/
noncomputable def sampleStd (xs : List ℚ) : Option ℝ :=
  if xs.length < 2 then none else some (Real.sqrt ((sampleVariance xs : ℚ) : ℝ))

/-- Largest date of the dataset (`df[Date].max()`); 0 on the empty dataset,
which the KPI contract excludes. -/
def maxDate : List OrderRow → ℤ
  | [] => 0
  | r :: rs => (rs.map OrderRow.date).foldl max r.date

/-- Smallest date of the dataset (`df[Date].min()`). -/
def minDate : List OrderRow → ℤ
  | [] => 0
  | r :: rs => (rs.map OrderRow.date).foldl min r.date

/-- Time span in days, `(df[Date].max() - df[Date].min()).days`. -/
def timeSpanDays (df : List OrderRow) : ℤ :=
  maxDate df - minDate df

/-- Per-day aggregated demand, `df.groupby(df[Date].dt.date)[Order_Quantity_kg].sum()`:
one entry per distinct date, holding the sum of the quantities of that date. -/
def dailyDemand (df : List OrderRow) : List ℚ :=
  ((df.map OrderRow.date).dedup).map fun d =>
    ((df.filter fun r => r.date = d).map OrderRow.quantity).sum

/-- The KPI snapshot returned by `DryIceAnalyzer.calculate_kpis`. -/
structure KPIs where
  total_orders : ℕ
  total_volume : ℚ
  avg_order_size : ℚ
  std_order_size : Option ℝ
  avg_monthly_demand : ℚ
  current_monthly_volume : ℚ
  order_frequency : ℚ
  container_utilization : ℚ
  total_cost : ℚ
  avg_cost_per_order : ℚ

/-- Embedding of `DryIceAnalyzer.calculate_kpis`. -/
noncomputable def calculate_kpis (p : Params) (df : List OrderRow) : KPIs :=
  let qs := df.map OrderRow.quantity
  let total_volume := qs.sum
  let avg_order := mean qs
  let avg_monthly_demand := avg_order * 30
  let time_span_days := timeSpanDays df
  let costs := df.map fun r => totalCostCol p r.quantity
  { total_orders := df.length
    total_volume := total_volume
    avg_order_size := avg_order
    std_order_size := sampleStd qs
    avg_monthly_demand := avg_monthly_demand
    current_monthly_volume :=
      if 0 < time_span_days then total_volume / (time_span_days : ℚ) * 30
      else avg_monthly_demand
    order_frequency :=
      if 0 < time_span_days then (df.length : ℚ) / (time_span_days : ℚ) * 30
      else 30
    container_utilization :=
      total_volume /
        (((df.map fun r => ((containersUsed p r.quantity : ℤ) : ℚ)).sum) * p.CONTAINER_SIZE)
    total_cost := costs.sum
    avg_cost_per_order := mean costs }

/-- The square-root EOQ formula of `DryIceAnalyzer.calculate_eoq`:
`sqrt(2 * demand * transport_cost / (holding_rate * price_per_kg))`. -/
noncomputable def eoq_formula (demand transport_cost holding_rate price_per_kg : ℚ) : ℝ :=
  Real.sqrt (((2 * demand * transport_cost) / (holding_rate * price_per_kg) : ℚ) : ℝ)

/-- Embedding of `DryIceAnalyzer.calculate_eoq`: the EOQ formula applied to the
average monthly demand of the KPI snapshot and the configured constants. -/
noncomputable def calculate_eoq (p : Params) (df : List OrderRow) : ℝ :=
  eoq_formula (calculate_kpis p df).avg_monthly_demand
    p.TRANSPORT_COST p.HOLDING_RATE p.PRICE_PER_KG

/-- Embedding of `DryIceAnalyzer.calculate_safety_stock`. The inverse normal
CDF `scipy.stats.norm.ppf` is an external library call, passed in as `ppf`.
With fewer than 2 distinct days the code falls back to `mean * 0.5`;
otherwise it returns `z_score * daily_std * sqrt(LEAD_TIME_DAYS)`. -/
noncomputable def calculate_safety_stock (ppf : ℚ → ℝ) (p : Params) (df : List OrderRow) : ℝ :=
  let daily := dailyDemand df
  if daily.length < 2 then
    ((mean (df.map OrderRow.quantity) * 0.5 : ℚ) : ℝ)
  else
    ppf p.SERVICE_LEVEL * Real.sqrt ((sampleVariance daily : ℚ) : ℝ) *
      Real.sqrt ((p.LEAD_TIME_DAYS : ℚ) : ℝ)

/-- Embedding of the `InventoryTracker.reorder_point` property: it recomputes
the EOQ and the safety stock from the analyzer and returns their sum. -/
noncomputable def reorder_point (ppf : ℚ → ℝ) (p : Params) (df : List OrderRow) : ℝ :=
  calculate_eoq p df + calculate_safety_stock ppf p df

/-- The dictionary returned by `DryIceAnalyzer.calculate_cost_savings`. -/
structure CostSavings where
  current_cost : ℝ
  eoq_cost : ℝ
  savings : ℝ
  percent_savings : ℝ

/-- Core of `DryIceAnalyzer.calculate_cost_savings`, as a function of the KPI
snapshot it computes internally and of the `eoq` argument. No guard exists on
either division: the function is total (in Python the numpy division by zero
silently yields inf or NaN, with warnings suppressed; no exception is raised). -/
noncomputable def cost_savings_from_kpis (p : Params) (kpis : KPIs) (eoq : ℝ) : CostSavings :=
  let transport_cost : ℝ := (p.TRANSPORT_COST : ℚ)
  let holding_rate : ℝ := (p.HOLDING_RATE : ℚ)
  let price_per_kg : ℝ := (p.PRICE_PER_KG : ℚ)
  let current_order_cost :=
    ((kpis.current_monthly_volume : ℚ) : ℝ) / ((kpis.avg_order_size : ℚ) : ℝ) * transport_cost +
      holding_rate * price_per_kg * ((kpis.avg_order_size : ℚ) : ℝ) / 2
  let eoq_order_cost :=
    ((kpis.current_monthly_volume : ℚ) : ℝ) / eoq * transport_cost +
      holding_rate * price_per_kg * eoq / 2
  let savings := max 0 (current_order_cost - eoq_order_cost)
  let percent_savings :=
    if 0 < current_order_cost then savings / current_order_cost * 100 else 0
  { current_cost := current_order_cost
    eoq_cost := eoq_order_cost
    savings := savings
    percent_savings := percent_savings }

/-- Embedding of `DryIceAnalyzer.calculate_cost_savings`: recomputes the KPI
snapshot and feeds it to the cost comparison. -/
noncomputable def calculate_cost_savings (p : Params) (df : List OrderRow) (eoq : ℝ) : CostSavings :=
  cost_savings_from_kpis p (calculate_kpis p df) eoq

/-- One entry of the `stock_history` list appended by
`InventoryTracker._log_transaction`. The wall-clock `timestamp` field
(`datetime.now()`) carries no information the claims depend on and is
omitted; `quantity`, `type` and `balance` are kept. -/
structure Transaction where
  quantity : ℚ
  type : String
  balance : ℚ
deriving DecidableEq, Repr

/-- State of `InventoryTracker`: the running stock balance and the
transaction log. The `alerts_enabled` flag is set in the constructor and
never read by any tracker method; it is carried along unchanged. -/
structure InventoryTracker where
  current_stock : ℚ
  alerts_enabled : Bool := true
  stock_history : List Transaction := []
deriving DecidableEq, Repr

/-- Embedding of `InventoryTracker._log_transaction`: appends one entry to
`stock_history` whose balance field is the current stock at logging time. -/
def log_transaction (s : InventoryTracker) (quantity : ℚ) (transaction_type : String) :
    InventoryTracker :=
  { s with stock_history :=
      s.stock_history ++ [{ quantity := quantity, type := transaction_type,
                            balance := s.current_stock }] }

/-- State transition of `InventoryTracker.update_stock`: subtracts the used
quantity from `current_stock`, then logs the transaction. The Python method
additionally returns `check_reorder_point()`, a read-only computation on the
new state that does not affect the state transition. -/
def update_stock (s : InventoryTracker) (quantity_used : ℚ)
    (transaction_type : String := "Consumption") : InventoryTracker :=
  log_transaction { s with current_stock := s.current_stock - quantity_used }
    quantity_used transaction_type

/-- State transition of the stock-receipt handler in `app/main.py`
(`Record Receipt` button): `current_stock += new_stock` followed by
`_log_transaction(new_stock, "Stock Receipt")`. -/
def record_receipt (s : InventoryTracker) (new_stock : ℚ) : InventoryTracker :=
  log_transaction { s with current_stock := s.current_stock + new_stock }
    new_stock "Stock Receipt"

/-- Folds a sequence of `update_stock` calls over a tracker state. -/
def applyOps (s : InventoryTracker) (ops : List (ℚ × String)) : InventoryTracker :=
  ops.foldl (fun st op => update_stock st op.1 op.2) s

/-- The three status labels of `InventoryTracker.get_stock_status`. -/
inductive StockStatus
  | CRITICAL
  | LOW
  | NORMAL
deriving DecidableEq, Repr

/-- The dictionary returned by `InventoryTracker.get_stock_status`. -/
structure StatusResult where
  status : StockStatus
  color : String
deriving DecidableEq, Repr

/-- Embedding of `InventoryTracker.get_stock_status` as a function of the
current stock and of the two live thresholds `self.safety_stock` and
`self.reorder_point` (both recomputed from the analyzer on every call). -/
noncomputable def get_stock_status (current_stock safety_stock reorder_pt : ℝ) :
    StatusResult :=
  if current_stock ≤ safety_stock then { status := .CRITICAL, color := "red" }
  else if current_stock ≤ reorder_pt then { status := .LOW, color := "orange" }
  else { status := .NORMAL, color := "green" }

/-- A single-row dataset: one order of 150 kg. Its average order size is 150,
hence its average monthly demand is 4500 kg. -/
def df_single : List OrderRow := [{ date := 0, quantity := 150 }]

/-- A two-row dataset spanning 10 days. -/
def df_two : List OrderRow := [{ date := 0, quantity := 500 }, { date := 10, quantity := 100 }]

/-- Auxiliary for claim C10: a sequence of `update_stock` calls only ever
appends to the transaction log, one entry per call. -/
theorem applyOps_log_extends (ops : List (ℚ × String)) (s : InventoryTracker) :
    ∃ tail : List Transaction,
      (applyOps s ops).stock_history = s.stock_history ++ tail ∧
      tail.length = ops.length := by
  induction ops generalizing s with
  | nil => exact ⟨[], by simp [applyOps], rfl⟩
  | cons op ops ih =>
    obtain ⟨tail, h1, h2⟩ := ih (update_stock s op.1 op.2)
    refine ⟨{ quantity := op.1, type := op.2,
              balance := (update_stock s op.1 op.2).current_stock } :: tail, ?_, ?_⟩
    · have hstep : applyOps s (op :: ops) = applyOps (update_stock s op.1 op.2) ops := rfl
      rw [hstep, h1]
      simp [update_stock, log_transaction]
    · simp [h2]

/-- Claim C1: for every dataset, cost-parameter configuration and inverse-CDF
function, the reorder point of the tracker equals exactly the sum of the
computed EOQ and the computed safety stock; it is never configured or derived
any other way. -/
theorem reorder_point_eq_eoq_add_safety_stock (ppf : ℚ → ℝ) (p : Params)
    (df : List OrderRow) :
    reorder_point ppf p df = calculate_eoq p df + calculate_safety_stock ppf p df :=
  rfl

/-- Claim C4: the EOQ is invariant under scaling both the transport cost and
the holding-cost term (holding rate times price per kg, here scaled through
the price) by the same positive factor k, for every demand value. -/
theorem eoq_scale_invariant (demand transport_cost holding_rate price_per_kg k : ℚ)
    (hk : 0 < k) :
    eoq_formula demand (k * transport_cost) holding_rate (k * price_per_kg) =
      eoq_formula demand transport_cost holding_rate price_per_kg := by
  unfold eoq_formula
  congr 1
  have hq : 2 * demand * (k * transport_cost) / (holding_rate * (k * price_per_kg)) =
      2 * demand * transport_cost / (holding_rate * price_per_kg) := by
    rw [show holding_rate * (k * price_per_kg) = k * (holding_rate * price_per_kg) by ring,
      show 2 * demand * (k * transport_cost) = k * (2 * demand * transport_cost) by ring,
      mul_div_mul_left _ _ hk.ne']
  exact_mod_cast hq

/-- Witness for claim C4 at demand 4500, the configured costs and k = 2. -/
theorem eoq_scale_invariant_witness :
    0 < (2 : ℚ) ∧
      eoq_formula 4500 (2 * 1741.94) 0.03 (2 * 146.55) =
        eoq_formula 4500 1741.94 0.03 146.55 :=
  ⟨by norm_num, eoq_scale_invariant 4500 1741.94 0.03 146.55 2 (by norm_num)⟩

/-- Claim C5: a consumption of q followed by a receipt of q returns
`current_stock` exactly to its value before the consumption, and the
transaction log is exactly the original log extended by the two new entries
(the consumption entry with balance `current_stock - q` and the receipt entry
with the restored balance), in particular two entries longer. -/
theorem consume_then_receive_restores_stock (s : InventoryTracker) (q : ℚ) (t : String) :
    (record_receipt (update_stock s q t) q).current_stock = s.current_stock ∧
      (record_receipt (update_stock s q t) q).stock_history =
        s.stock_history ++
          [{ quantity := q, type := t, balance := s.current_stock - q },
            { quantity := q, type := "Stock Receipt", balance := s.current_stock }] ∧
      (record_receipt (update_stock s q t) q).stock_history.length =
        s.stock_history.length + 2 := by
  refine ⟨?_, ?_, ?_⟩
  · simp [record_receipt, update_stock, log_transaction]
  · simp [record_receipt, update_stock, log_transaction]
  · simp [record_receipt, update_stock, log_transaction]

/-- Claim C10: each `update_stock` call appends exactly one transaction whose
balance field equals `current_stock` immediately after the mutation of that
call, and over any sequence of calls the log is append-only: the original log
stays an unmodified initial segment and exactly one entry is added per call. -/
theorem update_stock_log_append_only (s : InventoryTracker) (q : ℚ) (t : String)
    (ops : List (ℚ × String)) :
    (update_stock s q t).stock_history =
      s.stock_history ++
        [{ quantity := q, type := t, balance := (update_stock s q t).current_stock }] ∧
      ∃ tail : List Transaction,
        (applyOps s ops).stock_history = s.stock_history ++ tail ∧
        tail.length = ops.length := by
  refine ⟨?_, applyOps_log_extends ops s⟩
  simp [update_stock, log_transaction]

/-- Unfolding equation for the current-cost component of the cost comparison. -/
theorem cost_savings_current_cost_eq (p : Params) (k : KPIs) (eoq : ℝ) :
    (cost_savings_from_kpis p k eoq).current_cost =
      ((k.current_monthly_volume : ℚ) : ℝ) / ((k.avg_order_size : ℚ) : ℝ) *
          ((p.TRANSPORT_COST : ℚ) : ℝ) +
        ((p.HOLDING_RATE : ℚ) : ℝ) * ((p.PRICE_PER_KG : ℚ) : ℝ) *
          ((k.avg_order_size : ℚ) : ℝ) / 2 :=
  rfl

/-- Unfolding equation for the EOQ-cost component of the cost comparison. -/
theorem cost_savings_eoq_cost_eq (p : Params) (k : KPIs) (eoq : ℝ) :
    (cost_savings_from_kpis p k eoq).eoq_cost =
      ((k.current_monthly_volume : ℚ) : ℝ) / eoq * ((p.TRANSPORT_COST : ℚ) : ℝ) +
        ((p.HOLDING_RATE : ℚ) : ℝ) * ((p.PRICE_PER_KG : ℚ) : ℝ) * eoq / 2 :=
  rfl

/-- Unfolding equation for the clamped savings of the cost comparison. -/
theorem cost_savings_savings_eq (p : Params) (k : KPIs) (eoq : ℝ) :
    (cost_savings_from_kpis p k eoq).savings =
      max 0 ((cost_savings_from_kpis p k eoq).current_cost -
        (cost_savings_from_kpis p k eoq).eoq_cost) :=
  rfl

/-- Unfolding equation for the percentage savings of the cost comparison. -/
theorem cost_savings_percent_eq (p : Params) (k : KPIs) (eoq : ℝ) :
    (cost_savings_from_kpis p k eoq).percent_savings =
      if 0 < (cost_savings_from_kpis p k eoq).current_cost then
        (cost_savings_from_kpis p k eoq).savings /
          (cost_savings_from_kpis p k eoq).current_cost * 100
      else 0 :=
  rfl

/-- Claim C3: for every KPI snapshot (current monthly volume nonnegative) and
every positive EOQ, the cost comparison returns clamped savings at least 0;
when the current order cost is positive the percentage savings lies in
[0, 100); and when the current order cost is 0 the percentage savings is 0. -/
theorem cost_savings_nonneg_percent_lt_100 (k : KPIs) (eoq : ℝ)
    (heoq : 0 < eoq) (hcmv : 0 ≤ k.current_monthly_volume) :
    0 ≤ (cost_savings_from_kpis INVENTORY_PARAMETERS k eoq).savings ∧
      (0 < (cost_savings_from_kpis INVENTORY_PARAMETERS k eoq).current_cost →
        0 ≤ (cost_savings_from_kpis INVENTORY_PARAMETERS k eoq).percent_savings ∧
          (cost_savings_from_kpis INVENTORY_PARAMETERS k eoq).percent_savings < 100) ∧
      ((cost_savings_from_kpis INVENTORY_PARAMETERS k eoq).current_cost = 0 →
        (cost_savings_from_kpis INVENTORY_PARAMETERS k eoq).percent_savings = 0) := by
  have hcmvR : (0 : ℝ) ≤ ((k.current_monthly_volume : ℚ) : ℝ) := by exact_mod_cast hcmv
  have hec : 0 < (cost_savings_from_kpis INVENTORY_PARAMETERS k eoq).eoq_cost := by
    rw [cost_savings_eoq_cost_eq]
    have h1 : (0 : ℝ) ≤ ((k.current_monthly_volume : ℚ) : ℝ) / eoq *
        ((INVENTORY_PARAMETERS.TRANSPORT_COST : ℚ) : ℝ) := by
      apply mul_nonneg (div_nonneg hcmvR heoq.le)
      norm_num [INVENTORY_PARAMETERS]
    have h2 : (0 : ℝ) < ((INVENTORY_PARAMETERS.HOLDING_RATE : ℚ) : ℝ) *
        ((INVENTORY_PARAMETERS.PRICE_PER_KG : ℚ) : ℝ) * eoq / 2 := by
      apply div_pos _ (by norm_num)
      apply mul_pos _ heoq
      norm_num [INVENTORY_PARAMETERS]
    linarith
  refine ⟨?_, ?_, ?_⟩
  · rw [cost_savings_savings_eq]
    exact le_max_left _ _
  · intro hcur
    rw [cost_savings_percent_eq, if_pos hcur, cost_savings_savings_eq]
    have hsav0 : (0 : ℝ) ≤ max 0 ((cost_savings_from_kpis INVENTORY_PARAMETERS k eoq).current_cost -
        (cost_savings_from_kpis INVENTORY_PARAMETERS k eoq).eoq_cost) := le_max_left _ _
    have hsavlt : max 0 ((cost_savings_from_kpis INVENTORY_PARAMETERS k eoq).current_cost -
        (cost_savings_from_kpis INVENTORY_PARAMETERS k eoq).eoq_cost) <
        (cost_savings_from_kpis INVENTORY_PARAMETERS k eoq).current_cost :=
      max_lt hcur (by linarith)
    constructor
    · apply mul_nonneg (div_nonneg hsav0 hcur.le)
      norm_num
    · have hq : max 0 ((cost_savings_from_kpis INVENTORY_PARAMETERS k eoq).current_cost -
          (cost_savings_from_kpis INVENTORY_PARAMETERS k eoq).eoq_cost) /
          (cost_savings_from_kpis INVENTORY_PARAMETERS k eoq).current_cost < 1 :=
        (div_lt_one hcur).2 hsavlt
      nlinarith
  · intro h0
    rw [cost_savings_percent_eq, if_neg]
    rw [h0]
    exact lt_irrefl 0

/-- A concrete KPI snapshot used by witnesses: the snapshot of `df_two`
(current monthly volume 1800, average order size 300). -/
noncomputable def kpi_demo : KPIs := calculate_kpis INVENTORY_PARAMETERS df_two

/-- Witness for claim C3 at the `df_two` snapshot and EOQ 1. -/
theorem cost_savings_nonneg_percent_lt_100_witness :
    (0 : ℝ) < 1 ∧ (0 : ℚ) ≤ kpi_demo.current_monthly_volume ∧
      (0 ≤ (cost_savings_from_kpis INVENTORY_PARAMETERS kpi_demo 1).savings ∧
        (0 < (cost_savings_from_kpis INVENTORY_PARAMETERS kpi_demo 1).current_cost →
          0 ≤ (cost_savings_from_kpis INVENTORY_PARAMETERS kpi_demo 1).percent_savings ∧
            (cost_savings_from_kpis INVENTORY_PARAMETERS kpi_demo 1).percent_savings < 100) ∧
        ((cost_savings_from_kpis INVENTORY_PARAMETERS kpi_demo 1).current_cost = 0 →
          (cost_savings_from_kpis INVENTORY_PARAMETERS kpi_demo 1).percent_savings = 0)) :=
  ⟨by norm_num, by norm_num [kpi_demo, calculate_kpis, mean, df_two, timeSpanDays, maxDate, minDate],
    cost_savings_nonneg_percent_lt_100 kpi_demo 1 (by norm_num)
      (by norm_num [kpi_demo, calculate_kpis, mean, df_two, timeSpanDays, maxDate, minDate])⟩

/-- Claim C7: when the dataset spans zero or fewer days, the KPI computation
takes no division by the time span: the current monthly volume falls back to
the average monthly demand and the order frequency falls back to 30; when the
span is positive, both are the extrapolation formulas over the span. -/
theorem kpis_time_span_fallback (p : Params) (df : List OrderRow) :
    (timeSpanDays df ≤ 0 →
      (calculate_kpis p df).current_monthly_volume =
          (calculate_kpis p df).avg_monthly_demand ∧
        (calculate_kpis p df).order_frequency = 30) ∧
      (0 < timeSpanDays df →
        (calculate_kpis p df).current_monthly_volume =
            (calculate_kpis p df).total_volume / (timeSpanDays df : ℚ) * 30 ∧
          (calculate_kpis p df).order_frequency =
            ((calculate_kpis p df).total_orders : ℚ) / (timeSpanDays df : ℚ) * 30) := by
  constructor
  · intro h
    constructor <;> simp [calculate_kpis, not_lt.2 h]
  · intro h
    constructor <;> simp [calculate_kpis, h]

/-- Witness for claim C7: the single-row dataset takes both fallbacks, and
the two-row dataset spanning 10 days takes both extrapolation formulas. -/
theorem kpis_time_span_fallback_witness :
    timeSpanDays df_single ≤ 0 ∧
      (calculate_kpis INVENTORY_PARAMETERS df_single).current_monthly_volume =
          (calculate_kpis INVENTORY_PARAMETERS df_single).avg_monthly_demand ∧
        (calculate_kpis INVENTORY_PARAMETERS df_single).order_frequency = 30 ∧
      0 < timeSpanDays df_two ∧
        (calculate_kpis INVENTORY_PARAMETERS df_two).current_monthly_volume =
            (calculate_kpis INVENTORY_PARAMETERS df_two).total_volume /
              (timeSpanDays df_two : ℚ) * 30 ∧
          (calculate_kpis INVENTORY_PARAMETERS df_two).order_frequency =
            ((calculate_kpis INVENTORY_PARAMETERS df_two).total_orders : ℚ) /
              (timeSpanDays df_two : ℚ) * 30 := by
  have h1 : timeSpanDays df_single ≤ 0 := by decide
  have h2 : 0 < timeSpanDays df_two := by decide
  obtain ⟨f1, f2⟩ := (kpis_time_span_fallback INVENTORY_PARAMETERS df_single).1 h1
  obtain ⟨g1, g2⟩ := (kpis_time_span_fallback INVENTORY_PARAMETERS df_two).2 h2
  exact ⟨h1, f1, f2, h2, g1, g2⟩

/-- Claim C8, evaluation at the failing input: on a dataset with a single
order row, the standard deviation pandas computes with `ddof = 1` is NaN
(modelled as `none`), not the 0 that the specification requires. -/
theorem std_order_size_single_row_undefined :
    (calculate_kpis INVENTORY_PARAMETERS df_single).std_order_size = none := by
  simp [calculate_kpis, sampleStd, df_single]

/-- Claim C2, evaluation at the failing input: `calculate_cost_savings` has
no guard on the `eoq` argument; called with `eoq = 0` it still returns a
plain result record, with the current cost fully computed. In Python the
`numpy` division of the volume by zero silently yields `inf` under suppressed
warnings (in this embedding division by zero yields 0); in neither semantics
is any `InvalidInputError` raised. -/
theorem cost_savings_unguarded_at_zero_eoq :
    (calculate_cost_savings INVENTORY_PARAMETERS df_two 0).current_cost = 11111.115 := by
  rw [calculate_cost_savings, cost_savings_current_cost_eq]
  have hcmv : (calculate_kpis INVENTORY_PARAMETERS df_two).current_monthly_volume = 1800 := by
    norm_num [calculate_kpis, mean, df_two, timeSpanDays, maxDate, minDate]
  have havg : (calculate_kpis INVENTORY_PARAMETERS df_two).avg_order_size = 300 := by
    norm_num [calculate_kpis, mean, df_two]
  rw [hcmv, havg]
  norm_num [INVENTORY_PARAMETERS]

/-- Mean of a non-empty list of positive rationals is positive. -/
theorem mean_pos {xs : List ℚ} (hne : xs ≠ []) (hpos : ∀ x ∈ xs, 0 < x) :
    0 < mean xs := by
  unfold mean
  apply div_pos (List.sum_pos xs hpos hne)
  exact_mod_cast List.length_pos.2 hne

/-- On a non-empty dataset of positive quantities, with positive transport
cost and positive holding-cost term, the computed EOQ is positive. -/
theorem calculate_eoq_pos (p : Params) (df : List OrderRow) (hne : df ≠ [])
    (hq : ∀ r ∈ df, 0 < r.quantity) (htc : 0 < p.TRANSPORT_COST)
    (hhold : 0 < p.HOLDING_RATE * p.PRICE_PER_KG) :
    0 < calculate_eoq p df := by
  have hqs : ∀ x ∈ df.map OrderRow.quantity, 0 < x := by
    intro x hx
    obtain ⟨r, hr, rfl⟩ := List.mem_map.1 hx
    exact hq r hr
  have hne2 : df.map OrderRow.quantity ≠ [] := by simpa using hne
  have hamd : 0 < (calculate_kpis p df).avg_monthly_demand := by
    have heq : (calculate_kpis p df).avg_monthly_demand =
        mean (df.map OrderRow.quantity) * 30 := rfl
    rw [heq]
    have := mean_pos hne2 hqs
    linarith
  unfold calculate_eoq eoq_formula
  apply Real.sqrt_pos.2
  have harg : 0 < 2 * (calculate_kpis p df).avg_monthly_demand * p.TRANSPORT_COST /
      (p.HOLDING_RATE * p.PRICE_PER_KG) := by
    apply div_pos _ hhold
    have := mul_pos hamd htc
    linarith
  exact_mod_cast harg

/-- Exact classification of `get_stock_status` for arbitrary thresholds:
CRITICAL on stock at or below the safety stock, LOW strictly between safety
stock and reorder point (inclusive), NORMAL strictly above both. -/
theorem get_stock_status_spec (cs ss rp : ℝ) :
    ((get_stock_status cs ss rp).status = StockStatus.CRITICAL ↔ cs ≤ ss) ∧
      ((get_stock_status cs ss rp).status = StockStatus.LOW ↔ ss < cs ∧ cs ≤ rp) ∧
      ((get_stock_status cs ss rp).status = StockStatus.NORMAL ↔ ss < cs ∧ rp < cs) := by
  unfold get_stock_status
  split_ifs with h1 h2
  · exact ⟨by simp [h1],
      iff_of_false (by simp) (fun h => absurd h1 (not_le.2 h.1)),
      iff_of_false (by simp) (fun h => absurd h1 (not_le.2 h.1))⟩
  · exact ⟨iff_of_false (by simp) h1,
      iff_of_true rfl ⟨not_le.1 h1, h2⟩,
      iff_of_false (by simp) (fun h => absurd h2 (not_le.2 h.2))⟩
  · exact ⟨iff_of_false (by simp) h1,
      iff_of_false (by simp) (fun h => absurd h.2 h2),
      iff_of_true rfl ⟨not_le.1 h1, not_le.1 h2⟩⟩

/-- Claim C6: for the thresholds the tracker derives (safety stock, and
reorder point = EOQ + safety stock with positive EOQ), the status is CRITICAL
exactly on stock at or below the safety stock, otherwise LOW exactly up to
the reorder point, otherwise NORMAL; and the classification skips no state:
between any NORMAL stock level and any lower CRITICAL one there is an
intermediate level classified LOW. -/
theorem stock_status_classification_no_skip (ppf : ℚ → ℝ) (p : Params)
    (df : List OrderRow) (hne : df ≠ []) (hq : ∀ r ∈ df, 0 < r.quantity)
    (htc : 0 < p.TRANSPORT_COST) (hhold : 0 < p.HOLDING_RATE * p.PRICE_PER_KG) :
    ∀ ss rp : ℝ, ss = calculate_safety_stock ppf p df → rp = reorder_point ppf p df →
      (∀ cs : ℝ,
          ((get_stock_status cs ss rp).status = StockStatus.CRITICAL ↔ cs ≤ ss) ∧
            ((get_stock_status cs ss rp).status = StockStatus.LOW ↔ ss < cs ∧ cs ≤ rp) ∧
            ((get_stock_status cs ss rp).status = StockStatus.NORMAL ↔ ss < cs ∧ rp < cs)) ∧
        ∀ cs1 cs2 : ℝ, cs1 < cs2 →
          (get_stock_status cs2 ss rp).status = StockStatus.NORMAL →
          (get_stock_status cs1 ss rp).status = StockStatus.CRITICAL →
          ∃ c : ℝ, cs1 < c ∧ c < cs2 ∧ (get_stock_status c ss rp).status = StockStatus.LOW := by
  intro ss rp hss hrp
  have heoq : 0 < calculate_eoq p df := calculate_eoq_pos p df hne hq htc hhold
  have hlt : ss < rp := by
    rw [hss, hrp, reorder_point]
    linarith
  refine ⟨fun cs => get_stock_status_spec cs ss rp, ?_⟩
  intro cs1 cs2 h12 hn hc
  have h2 := (get_stock_status_spec cs2 ss rp).2.2.1 hn
  have h1 := (get_stock_status_spec cs1 ss rp).1.1 hc
  exact ⟨rp, by linarith, h2.2, (get_stock_status_spec rp ss rp).2.1.2 ⟨hlt, le_refl rp⟩⟩

/-- Witness for claim C6 on the single-row dataset with the configured
constants and the inverse CDF modelled as the constant-zero function. -/
theorem stock_status_classification_no_skip_witness :
    df_single ≠ [] ∧ (∀ r ∈ df_single, 0 < r.quantity) ∧
      0 < INVENTORY_PARAMETERS.TRANSPORT_COST ∧
      0 < INVENTORY_PARAMETERS.HOLDING_RATE * INVENTORY_PARAMETERS.PRICE_PER_KG ∧
      ((∀ cs : ℝ,
          ((get_stock_status cs (calculate_safety_stock (fun _ => 0) INVENTORY_PARAMETERS df_single)
              (reorder_point (fun _ => 0) INVENTORY_PARAMETERS df_single)).status =
                StockStatus.CRITICAL ↔
              cs ≤ calculate_safety_stock (fun _ => 0) INVENTORY_PARAMETERS df_single) ∧
            ((get_stock_status cs (calculate_safety_stock (fun _ => 0) INVENTORY_PARAMETERS df_single)
                (reorder_point (fun _ => 0) INVENTORY_PARAMETERS df_single)).status =
                  StockStatus.LOW ↔
                calculate_safety_stock (fun _ => 0) INVENTORY_PARAMETERS df_single < cs ∧
                  cs ≤ reorder_point (fun _ => 0) INVENTORY_PARAMETERS df_single) ∧
            ((get_stock_status cs (calculate_safety_stock (fun _ => 0) INVENTORY_PARAMETERS df_single)
                (reorder_point (fun _ => 0) INVENTORY_PARAMETERS df_single)).status =
                  StockStatus.NORMAL ↔
                calculate_safety_stock (fun _ => 0) INVENTORY_PARAMETERS df_single < cs ∧
                  reorder_point (fun _ => 0) INVENTORY_PARAMETERS df_single < cs)) ∧
        ∀ cs1 cs2 : ℝ, cs1 < cs2 →
          (get_stock_status cs2 (calculate_safety_stock (fun _ => 0) INVENTORY_PARAMETERS df_single)
              (reorder_point (fun _ => 0) INVENTORY_PARAMETERS df_single)).status =
            StockStatus.NORMAL →
          (get_stock_status cs1 (calculate_safety_stock (fun _ => 0) INVENTORY_PARAMETERS df_single)
              (reorder_point (fun _ => 0) INVENTORY_PARAMETERS df_single)).status =
            StockStatus.CRITICAL →
          ∃ c : ℝ, cs1 < c ∧ c < cs2 ∧
            (get_stock_status c (calculate_safety_stock (fun _ => 0) INVENTORY_PARAMETERS df_single)
                (reorder_point (fun _ => 0) INVENTORY_PARAMETERS df_single)).status =
              StockStatus.LOW) := by
  have hne : df_single ≠ [] := by simp [df_single]
  have hq : ∀ r ∈ df_single, 0 < r.quantity := by
    intro r hr
    simp only [df_single, List.mem_singleton] at hr
    rw [hr]
    norm_num
  have htc : 0 < INVENTORY_PARAMETERS.TRANSPORT_COST := by norm_num [INVENTORY_PARAMETERS]
  have hhold : 0 < INVENTORY_PARAMETERS.HOLDING_RATE * INVENTORY_PARAMETERS.PRICE_PER_KG := by
    norm_num [INVENTORY_PARAMETERS]
  exact ⟨hne, hq, htc, hhold,
    stock_status_classification_no_skip (fun _ => 0) INVENTORY_PARAMETERS df_single
      hne hq htc hhold _ _ rfl rfl⟩

/-- The single-row 150 kg dataset has average monthly demand 4500 kg. -/
theorem df_single_amd :
    (calculate_kpis INVENTORY_PARAMETERS df_single).avg_monthly_demand = 4500 := by
  norm_num [calculate_kpis, mean, df_single]

/-- Upper bound on the example EOQ: it is below 1888.4 kg. -/
theorem eoq_example_ub : calculate_eoq INVENTORY_PARAMETERS df_single < 1888.4 := by
  unfold calculate_eoq eoq_formula
  rw [df_single_amd, Real.sqrt_lt' (by norm_num : (0 : ℝ) < 1888.4)]
  push_cast
  norm_num [INVENTORY_PARAMETERS]

/-- Lower bound on the example EOQ: it is above 1888.3 kg. -/
theorem eoq_example_lb : (1888.3 : ℝ) < calculate_eoq INVENTORY_PARAMETERS df_single := by
  unfold calculate_eoq eoq_formula
  rw [df_single_amd, Real.lt_sqrt (by norm_num : (0 : ℝ) ≤ 1888.3)]
  push_cast
  norm_num [INVENTORY_PARAMETERS]

/-- Counterexample to claim C9: with the configured parameters and average
monthly demand 4500 kg the computed EOQ is not approximately 1891.9 kg; it
differs from 1891.9 by more than 0.5 (in fact by more than 3). -/
theorem eoq_example_not_approx_1891_9 :
    ¬ |calculate_eoq INVENTORY_PARAMETERS df_single - 1891.9| ≤ 0.5 := by
  intro h
  rw [abs_le] at h
  have := eoq_example_ub
  linarith [h.1]

/-- Claim C9 as amended: with average monthly demand 4500 kg and the
configured costs, the EOQ computation returns exactly
sqrt(2 × 4500 × 1741.94 / (0.03 × 146.55)), which is approximately 1888.4 kg
(within 0.1). -/
theorem eoq_example_value :
    calculate_eoq INVENTORY_PARAMETERS df_single =
      Real.sqrt (2 * 4500 * 1741.94 / (0.03 * 146.55)) ∧
      |calculate_eoq INVENTORY_PARAMETERS df_single - 1888.4| < 0.1 := by
  constructor
  · unfold calculate_eoq eoq_formula
    rw [df_single_amd]
    congr 1
    push_cast
    norm_num [INVENTORY_PARAMETERS]
  · rw [abs_lt]
    constructor
    · linarith [eoq_example_lb]
    · linarith [eoq_example_ub]

end DryIce
